import Mathlib

/-!
Verification development for the FeaturePipeline repository
(`feature-pipeline-demo.ipynb`): a shallow embedding of the two classes
`Transformation` and `FeaturePipeline`, followed by theorems about the
engine's argument resolution, row-identity management, accumulation loop,
registration, and failure semantics.

Tables are modelled column-major, as pandas does: a `DF` is a row-label
list (the index) together with named columns of scalar values; a `Series`
is one named column with its own index.  Fallible pandas/Python operations
return `Except PyErr`.
-/

namespace FeaturePipelineModel

/-- A scalar cell value: the demo data holds strings, numbers and nulls. -/
inductive Value where
  | vStr (s : String)
  | vInt (z : Int)
  | vNone
deriving DecidableEq

/-- A pandas row label: either a string key (after `df.index = index_list`)
or a positional integer label (after `reset_index(drop=True)`). -/
inductive PyLabel where
  | str (s : String)
  | nat (n : Nat)
deriving DecidableEq

/-- A pandas `Series`: an optional name, row labels, and values. -/
structure Series where
  name : Option String
  idx : List PyLabel
  vals : List Value
deriving DecidableEq

/-- A pandas `DataFrame`: row labels and named columns (column order matters). -/
structure DF where
  idx : List PyLabel
  cols : List (String × List Value)
deriving DecidableEq

/-- What a transform function may return (the engine handles `pd.DataFrame`
and `pd.Series` results). -/
inductive PyTDF where
  | series (s : Series)
  | dataframe (d : DF)
deriving DecidableEq

/-- A Python value passed as an argument to a transform function:
a scalar (fixed parameters such as a threshold), a series, or a dataframe. -/
inductive PyObj where
  | scalar (v : Value)
  | series (s : Series)
  | dataframe (d : DF)
deriving DecidableEq

/-- The Python exceptions the engine's code paths can raise. -/
inductive PyErr where
  | typeError
  | keyError
  | valueError
  | assertionError
  | exception (msg : String)
deriving DecidableEq

/-- A transform function object: its declared parameter names, its body
(receiving the bound argument values in declared-parameter order), and the
`logger` attribute that `add_transformation` sets on the object. -/
structure TransformFn where
  params : List String
  body : List PyObj → Except PyErr PyTDF
  logger : Option Nat

/-- The `name` attribute of a `Transformation`: `None`, a single string,
or a list of strings. -/
inductive TName where
  | noname
  | single (s : String)
  | multi (l : List String)
deriving DecidableEq

/-- The `on_col` attribute: a single string or a tuple/list of column names. -/
inductive OnCol where
  | ostr (s : String)
  | olist (l : List String)
deriving DecidableEq

/-- The `Transformation` class: one registered unit. -/
structure Transformation where
  on_col : OnCol
  transformation_f : TransformFn
  name : TName
  transformation_args : Option (List (String × PyObj))
  transform_type : String
  transformation_applied : Bool

/-- Python keyword-call binding check for `fn(**args)`: every declared
parameter must be supplied and every supplied keyword must be declared;
otherwise Python raises `TypeError` at the call site. -/
def sigMatches (f : TransformFn) (args : List (String × PyObj)) : Bool :=
  f.params.all (fun p => (args.lookup p).isSome) &&
    args.all (fun kv => f.params.contains kv.1)

/-- `self.transformation_f(**args)`: bind keywords to declared parameters
(raising `TypeError` on a signature mismatch), then run the body on the
values arranged in declared-parameter order. -/
def callNamed (f : TransformFn) (args : List (String × PyObj)) :
    Except PyErr PyTDF :=
  if sigMatches f args then f.body (f.params.filterMap (fun p => args.lookup p))
  else .error .typeError

/-- `self.transformation_f(*list(args.values()))`: positional call; an arity
mismatch raises `TypeError`, otherwise the body runs on the values in the
mapping's insertion order. -/
def callPositional (f : TransformFn) (vals : List PyObj) : Except PyErr PyTDF :=
  if vals.length = f.params.length then f.body vals else .error .typeError

/-- The `try: f(**args) except TypeError: f(*list(args.values()))` block of
`Transformation.apply`: any `TypeError` from the keyword call (a signature
mismatch or a `TypeError` raised inside the body) triggers one positional
retry; any other error propagates. -/
def rawCall (f : TransformFn) (args : List (String × PyObj)) :
    Except PyErr PyTDF :=
  match callNamed f args with
  | .error .typeError => callPositional f (args.map Prod.snd)
  | r => r

/-- The positional labels `0, 1, ..., n-1` produced by `reset_index(drop=True)`. -/
def resetLabels (n : Nat) : List PyLabel := (List.range n).map PyLabel.nat

/-- `tdf.reset_index(drop=True)`: discard the row labels, keep positions. -/
def resetIndexDrop : PyTDF → PyTDF
  | .series s => .series ⟨s.name, resetLabels s.idx.length, s.vals⟩
  | .dataframe d => .dataframe ⟨resetLabels d.idx.length, d.cols⟩

/-- The renaming block of `Transformation.apply` (run only when
`self.name is not None`): a DataFrame result gets `tdf.columns = self.name`
when the name is a list (pandas raises `ValueError` on a length mismatch),
or the prefix renaming `name + "_" + str(col)` when the name is a single
string; a Series result is wrapped into a one-column DataFrame whose column
is the single name (a list name is not a hashable column label: `TypeError`). -/
def renameResult (name : TName) (tdf : PyTDF) : Except PyErr PyTDF :=
  match name with
  | .noname => .ok tdf
  | nm =>
    match tdf with
    | .dataframe d =>
      match nm with
      | .multi l =>
        if l.length = d.cols.length then
          .ok (.dataframe ⟨d.idx, l.zip (d.cols.map Prod.snd)⟩)
        else .error .valueError
      | .single n =>
        .ok (.dataframe ⟨d.idx, d.cols.map (fun c => (n ++ "_" ++ c.1, c.2))⟩)
      | .noname => .ok tdf
    | .series s =>
      match nm with
      | .single n => .ok (.dataframe ⟨s.idx, [(n, s.vals)]⟩)
      | .multi _ => .error .typeError
      | .noname => .ok tdf

/-- `Transformation.apply(self, args)`: call the function (with the
`TypeError`-retry discipline), rename per `self.name`, reset the row index
to positional, and set `transformation_applied` on success.  Returns the
(possibly mutated) unit together with the outcome. -/
def Transformation.apply (t : Transformation) (args : List (String × PyObj)) :
    Transformation × Except PyErr PyTDF :=
  match rawCall t.transformation_f args with
  | .error e => (t, .error e)
  | .ok tdf =>
    match renameResult t.name tdf with
    | .error e => (t, .error e)
    | .ok tdf1 =>
      ({t with transformation_applied := true}, .ok (resetIndexDrop tdf1))

/-- The pipeline engine: the `FeaturePipeline` class. -/
structure FeaturePipeline where
  transformations : List Transformation
  transformed_df : Option PyTDF
  logger : Option Nat

/-- Python `transformation_f in self.transformations`: list membership via
`==` between the function object and each `Transformation` instance.
Objects of distinct classes without a custom `__eq__` compare by identity,
and a function object is never the same object as a `Transformation`
wrapper, so every comparison is `False` and the membership test never
succeeds. -/
def fnInTransformations (_f : TransformFn) (ts : List Transformation) : Bool :=
  ts.any (fun _t => false)

/-- `if type(on_cols) in [str]: on_cols = [on_cols]`. -/
def normalizeOnCols : OnCol → OnCol
  | .ostr s => .olist [s]
  | c => c

/-- `FeaturePipeline.add_transformation`: if the (never-true) duplicate
check fires, skip; otherwise set `transformation_f.logger = self.logger`
(mutating the caller's function object), normalize a single column name to
a one-element list, and append a fresh `Transformation`.  Returns the
engine together with the caller's (mutated) function object. -/
def FeaturePipeline.add_transformation (p : FeaturePipeline) (on_cols : OnCol)
    (transformation_f : TransformFn)
    (transformation_args : Option (List (String × PyObj)))
    (name : TName) (transform_type : String) :
    FeaturePipeline × TransformFn :=
  if fnInTransformations transformation_f p.transformations then
    (p, transformation_f)
  else
    let f' := {transformation_f with logger := p.logger}
    ({p with
        transformations := p.transformations ++
          [⟨normalizeOnCols on_cols, f', name, transformation_args,
            transform_type, false⟩]},
     f')

/-- The column names of a DataFrame, in order. -/
def DF.colNames (d : DF) : List String := d.cols.map Prod.fst

/-- The values of a named column (first occurrence; used only under a
`c in df.columns` guard or after column deduplication). -/
def DF.getColVals (d : DF) (c : String) : List Value :=
  match d.cols.lookup c with
  | some vs => vs
  | none => []

/-- `df[c]` for a present column: a Series named `c` sharing the frame's index. -/
def DF.getCol (d : DF) (c : String) : Series := ⟨some c, d.idx, d.getColVals c⟩

/-- One lookup of `FeaturePipeline.get_args`: `if c in df.columns` take the
raw column, else `transformed_df[c]` (a missing column, or a `None` /
unsuitable accumulated table, raises inside the `try`, and the bare
`except` re-raises the engine's own exception naming the column).  For a
Series-valued accumulated table, `transformed_df[c]` is a label lookup
yielding a scalar. -/
def resolveColumn (c : String) (df : DF) (transformed_df : Option PyTDF) :
    Except PyErr PyObj :=
  if df.colNames.contains c then .ok (.series (df.getCol c))
  else
    match transformed_df with
    | some (.dataframe fd) =>
      if fd.colNames.contains c then .ok (.series (fd.getCol c))
      else .error (.exception ("Column " ++ c ++ " not found in input dataframes"))
    | some (.series s) =>
      match (s.idx.zip s.vals).lookup (PyLabel.str c) with
      | some v => .ok (.scalar v)
      | none =>
        .error (.exception ("Column " ++ c ++ " not found in input dataframes"))
    | none =>
      .error (.exception ("Column " ++ c ++ " not found in input dataframes"))

/-- The column label `pd.concat` gives the `i`-th series: its name, or the
positional label when unnamed. -/
def seriesColName (i : Nat) (s : Series) : String :=
  match s.name with
  | some n => n
  | none => toString i

/-- An argument that must be a Series (`pd.concat` raises `TypeError` on
a scalar member). -/
def asSeries : PyObj → Except PyErr Series
  | .series s => .ok s
  | _ => .error .typeError

/-- `pd.concat(list_of_series, axis=1)`, modelled for the identical-index
case (the resolved columns all carry the working frame's index within one
`apply` call): columns side by side under the series' names.  An empty
list raises (`ValueError: No objects to concatenate`); differing row
labels — where pandas would align by label — are modelled as an error,
since the engine never produces them on the paths the claims concern. -/
def concatSeriesAxis1 (objs : List PyObj) : Except PyErr DF :=
  match objs with
  | [] => .error .valueError
  | o :: os => do
    let s0 ← asSeries o
    let ss ← os.mapM asSeries
    if (s0 :: ss).all (fun s => s.idx = s0.idx) then
      .ok ⟨s0.idx, ((s0 :: ss).enum).map (fun p => (seriesColName p.1 p.2, p.2.vals))⟩
    else .error .valueError

/-- Python dict assignment `d[k] = v`: replace in place if the key exists,
else append (dict insertion order). -/
def dictSet (d : List (String × PyObj)) (k : String) (v : PyObj) :
    List (String × PyObj) :=
  if d.any (fun kv => kv.1 = k) then
    d.map (fun kv => if kv.1 = k then (k, v) else kv)
  else d ++ [(k, v)]

/-- Python `args.update(other)`: set each pair in order. -/
def dictUpdate (d upd : List (String × PyObj)) : List (String × PyObj) :=
  upd.foldl (fun acc kv => dictSet acc kv.1 kv.2) d

/-- `FeaturePipeline.get_args(self, t, df, transformed_df)`: resolve each
declared input name (raw frame first, then the accumulated table), package
per the calling convention (`ser1.. serN` for `'series'`; a concatenated
frame under `'df'` with the row-count assertion for `'dataframe'`; an
unknown type raises), then overlay the unit's fixed arguments when the
dict is non-empty (Python truthiness). -/
def FeaturePipeline.get_args (t : Transformation) (df : DF)
    (transformed_df : Option PyTDF) :
    Except PyErr (List (String × PyObj)) := do
  let on_col_list : List String :=
    match t.on_col with
    | .ostr s => [s]
    | .olist l => l
  let list_of_series ← on_col_list.mapM (fun c => resolveColumn c df transformed_df)
  let args ←
    if t.transform_type = "series" then
      Except.ok (list_of_series.enum.map
        (fun p => ("ser" ++ toString (p.1 + 1), p.2)))
    else if t.transform_type = "dataframe" then do
      let arg_df ← concatSeriesAxis1 list_of_series
      -- assert arg_df.shape[0] == list_of_series[0].shape[0]
      match list_of_series with
      | [] => Except.error .valueError
      | o :: _ => do
        let s0 ← asSeries o
        if arg_df.idx.length = s0.idx.length then
          Except.ok [("df", PyObj.dataframe arg_df)]
        else Except.error .assertionError
    else Except.error (.exception "Unknwon transform type")
  match t.transformation_args with
  | none => .ok args
  | some l => .ok (if l.isEmpty then args else dictUpdate args l)

/-- `df.loc[:, ~df.columns.duplicated()]`: keep the first column of each name. -/
def dedupColumnsAux : List (String × List Value) → List String →
    List (String × List Value)
  | [], _ => []
  | c :: cs, seen =>
    if seen.contains c.1 then dedupColumnsAux cs seen
    else c :: dedupColumnsAux cs (c.1 :: seen)

/-- Column deduplication of the working copy of the raw frame. -/
def DF.dedupColumns (d : DF) : DF := ⟨d.idx, dedupColumnsAux d.cols []⟩

/-- Python `"".join(values)`: every element must already be a `str`,
otherwise the call raises `TypeError` (the code never applies `str(...)`). -/
def joinStrs : List Value → Except PyErr String
  | [] => .ok ""
  | .vStr s :: rest => (joinStrs rest).map (fun r => s ++ r)
  | _ :: _ => .error .typeError

/-- The row-`r` values of the given columns, in column order. -/
def DF.rowValuesAt (d : DF) (cols : List String) (r : Nat) : List Value :=
  cols.map (fun c => (d.getColVals c).getD r Value.vNone)

/-- `df[index_cols].apply(lambda x: "".join([v for v in x[index_cols]]), axis=1)`:
a missing identity column raises `KeyError` at the selection; each row key
is the join of that row's identity values. -/
def DF.rowKeys (d : DF) (cols : List String) : Except PyErr (List String) :=
  if cols.all (fun c => d.colNames.contains c) then
    (List.range d.idx.length).mapM (fun r => joinStrs (d.rowValuesAt cols r))
  else .error .keyError

/-- The keep-mask of `drop_duplicates` (first occurrence wins): position
`i` is kept iff its key does not occur earlier. -/
def firstOccMaskAux : List String → List String → List Bool
  | [], _ => []
  | k :: ks, seen => (!seen.contains k) :: firstOccMaskAux ks (k :: seen)

/-- First-occurrence keep-mask over a key list. -/
def firstOccMask (keys : List String) : List Bool := firstOccMaskAux keys []

/-- Keep the elements of `l` at the `true` positions of `mask`. -/
def maskList {α : Type} (mask : List Bool) (l : List α) : List α :=
  ((mask.zip l).filter Prod.fst).map Prod.snd

/-- The key sequence with later duplicates removed (first occurrence wins). -/
def firstDedup (keys : List String) : List String :=
  maskList (firstOccMask keys) keys

/-- Row filtering of a frame by a keep-mask (`drop_duplicates`). -/
def DF.filterRows (d : DF) (mask : List Bool) : DF :=
  ⟨maskList mask d.idx, d.cols.map (fun c => (c.1, maskList mask c.2))⟩

/-- `df[c] = vs`: overwrite the column in place if present, else append. -/
def DF.setCol (d : DF) (c : String) (vs : List Value) : DF :=
  if d.colNames.contains c then
    ⟨d.idx, d.cols.map (fun kv => if kv.1 = c then (c, vs) else kv)⟩
  else ⟨d.idx, d.cols ++ [(c, vs)]⟩

/-- `del df[c]`. -/
def DF.delCol (d : DF) (c : String) : DF :=
  ⟨d.idx, d.cols.filter (fun kv => kv.1 ≠ c)⟩

/-- The row-identity block at the top of `apply_transformations`: when
`index_cols` is truthy, build the per-row `INDEX` key column, drop rows
whose key duplicates an earlier one, take the surviving key sequence as
`index_list`, install it as the frame's index and delete the helper
column; otherwise the frame's existing index is the canonical ordering. -/
def rowIdentity (df : DF) (index_cols : Option (List String)) :
    Except PyErr (DF × List PyLabel) :=
  match index_cols with
  | some cols =>
    if cols.isEmpty then .ok (df, df.idx)
    else
      match df.rowKeys cols with
      | .error e => .error e
      | .ok keys =>
        let dfI := df.setCol "INDEX" (keys.map Value.vStr)
        let df1 := dfI.filterRows (firstOccMask keys)
        let index_list := (firstDedup keys).map PyLabel.str
        .ok ((DF.mk index_list df1.cols).delCol "INDEX", index_list)
  | none => .ok (df, df.idx)

/-- View a result as a frame the way `pd.concat` does: a Series becomes a
one-column frame labelled by its name (positional label when unnamed). -/
def tdfToDF : PyTDF → DF
  | .dataframe d => d
  | .series s =>
    ⟨s.idx, [(match s.name with | some n => n | none => "0", s.vals)]⟩

/-- `pd.concat([transformed_df, tdf], axis=1)`, modelled for the
identical-index case (the engine assigns the canonical `index_list` to
both operands before each merge within a call); differing labels — where
pandas would align — are modelled as an error. -/
def concatAxis1 (a b : PyTDF) : Except PyErr PyTDF :=
  let da := tdfToDF a
  let db := tdfToDF b
  if da.idx = db.idx then .ok (.dataframe ⟨da.idx, da.cols ++ db.cols⟩)
  else .error .valueError

/-- `tdf.index = index_list`: replace the row labels positionally; pandas
raises `ValueError` on a length mismatch. -/
def setIndexLabels (tdf : PyTDF) (labels : List PyLabel) :
    Except PyErr PyTDF :=
  match tdf with
  | .series s =>
    if s.idx.length = labels.length then .ok (.series ⟨s.name, labels, s.vals⟩)
    else .error .valueError
  | .dataframe d =>
    if d.idx.length = labels.length then .ok (.dataframe ⟨labels, d.cols⟩)
    else .error .valueError

/-- The row labels of a result table. -/
def tdfIndex : PyTDF → List PyLabel
  | .series s => s.idx
  | .dataframe d => d.idx

/-- One non-skipped iteration of the `apply_transformations` loop: resolve
arguments, invoke the unit, reassign the canonical index, and merge onto
the running result.  Returns the (possibly flag-mutated) unit, whether the
transform function was actually invoked, and the new running result or the
propagated error. -/
def runUnit (df : DF) (index_list : List PyLabel) (t : Transformation)
    (localT : Option PyTDF) : Transformation × Bool × Except PyErr PyTDF :=
  match FeaturePipeline.get_args t df localT with
  | .error e => (t, false, .error e)
  | .ok args =>
    match Transformation.apply t args with
    | (t', .error e) => (t', true, .error e)
    | (t', .ok tdf) =>
      match setIndexLabels tdf index_list with
      | .error e => (t', true, .error e)
      | .ok tdfI =>
        match localT with
        | none => (t', true, .ok tdfI)
        | some prev =>
          match concatAxis1 prev tdfI with
          | .error e => (t', true, .error e)
          | .ok merged => (t', true, .ok merged)

/-- The outcome of the `for t in self.transformations` loop: the unit list
(with mutated flags), the engine's `self.transformed_df` (stored back after
every completed unit, hence surviving a later failure), the registration
positions of the units whose transform function was invoked, and the
returned running result or the propagated error. -/
structure LoopOut where
  units : List Transformation
  selfTdf : Option PyTDF
  invoked : List Nat
  result : Except PyErr (Option PyTDF)

/-- The `apply_transformations` loop over the registered units: a unit with
`transformation_applied` set is skipped (diagnostic only) unless
`reapply_all`; otherwise it is run and the running result is stored back
onto the engine before the next unit; an error aborts the remaining
units, leaving `selfTdf` at its last stored value. -/
def applyLoop (df : DF) (index_list : List PyLabel) (reapply_all : Bool) :
    List Transformation → Option PyTDF → Option PyTDF → LoopOut
  | [], selfT, localT => ⟨[], selfT, [], .ok localT⟩
  | t :: rest, selfT, localT =>
    if t.transformation_applied && !reapply_all then
      let o := applyLoop df index_list reapply_all rest selfT localT
      ⟨t :: o.units, o.selfTdf, o.invoked.map (· + 1), o.result⟩
    else
      match runUnit df index_list t localT with
      | (t', inv, .error e) =>
        ⟨t' :: rest, selfT, if inv then [0] else [], .error e⟩
      | (t', _, .ok m) =>
        let o := applyLoop df index_list reapply_all rest (some m) (some m)
        ⟨t' :: o.units, o.selfTdf, 0 :: o.invoked.map (· + 1), o.result⟩

/-- `FeaturePipeline.apply_transformations(self, df, index_cols, reapply_all)`:
deduplicate the raw frame's columns, establish the canonical row identity,
then run the loop starting from the engine's previously accumulated table
(`transformed_df = None or self.transformed_df`).  Returns the updated
engine, the invoked-unit positions, and the result or propagated error. -/
def FeaturePipeline.apply_transformations (p : FeaturePipeline) (df : DF)
    (index_cols : Option (List String)) (reapply_all : Bool) :
    FeaturePipeline × List Nat × Except PyErr (Option PyTDF) :=
  match rowIdentity df.dedupColumns index_cols with
  | .error e => (p, [], .error e)
  | .ok (df1, index_list) =>
    let o := applyLoop df1 index_list reapply_all p.transformations
      p.transformed_df p.transformed_df
    ({p with transformations := o.units, transformed_df := o.selfTdf},
     o.invoked, o.result)

/-- Modelled from the spec: the row key as §3/§4.2 of the spec describe it —
the concatenation of the STRING REPRESENTATIONS (`str(v)`) of the identity
columns' values.  Used only to contrast with the code's `"".join`, which
performs no conversion. -/
def specStr : Value → String
  | .vStr s => s
  | .vInt z => toString z
  | .vNone => "None"

/-- Concatenation of a list of strings (the spec's key-building step,
shared with the all-strings behaviour of the code's `"".join`). -/
def specJoin : List String → String
  | [] => ""
  | s :: rest => s ++ specJoin rest

/-- Modelled from the spec: the per-row identity keys under the spec's
string-representation reading. -/
def specRowKeys (d : DF) (cols : List String) : List String :=
  (List.range d.idx.length).map
    (fun r => specJoin ((d.rowValuesAt cols r).map specStr))

/-! Concrete data used by witnesses and counterexamples. -/

/-- The spec §8 example raw table, with string-valued identity column:
`ID=["1","2","2"]`, `Amount=[100,600,600]`. -/
def exRaw : DF :=
  ⟨[PyLabel.nat 0, PyLabel.nat 1, PyLabel.nat 2],
   [("ID", [Value.vStr "1", Value.vStr "2", Value.vStr "2"]),
    ("Amount", [Value.vInt 100, Value.vInt 600, Value.vInt 600])]⟩

/-- A caller-supplied thresholding transform (opaque callable to the
engine): indicator of the series' values exceeding 500. -/
def exThresholdFn : TransformFn :=
  ⟨["ser1"],
   fun vals =>
     match vals with
     | [PyObj.series s] =>
       .ok (.series ⟨none, s.idx, s.vals.map (fun v =>
          match v with
          | .vInt z => if z > 500 then .vInt 1 else .vInt 0
          | _ => .vNone)⟩)
     | _ => .error .typeError,
   none⟩

/-- A fresh engine with the thresholding unit registered as `HighAmount`. -/
def exPipe : FeaturePipeline :=
  ((FeaturePipeline.mk [] none none).add_transformation (.ostr "Amount")
    exThresholdFn none (.single "HighAmount") "series").1

/-- The raw table after column dedup and keyed row identity on `ID`. -/
def exDF1 : DF :=
  ⟨[PyLabel.str "1", PyLabel.str "2"],
   [("ID", [Value.vStr "1", Value.vStr "2"]),
    ("Amount", [Value.vInt 100, Value.vInt 600])]⟩

/-- The canonical row identity of the example call. -/
def exIdxL : List PyLabel := [PyLabel.str "1", PyLabel.str "2"]

/-- A raw table whose identity column holds an integer: Python's
`"".join` raises `TypeError` on it. -/
def c3df : DF := ⟨[PyLabel.nat 0], [("ID", [Value.vInt 1])]⟩

/-- A transform function used to exhibit duplicate registration. -/
def c6fn : TransformFn := ⟨["ser1"], fun _ => .error .typeError, none⟩

/-- First registration of `c6fn` on a fresh engine. -/
def c6step1 : FeaturePipeline × TransformFn :=
  (FeaturePipeline.mk [] none none).add_transformation (.ostr "A") c6fn
    none .noname "series"

/-- Second registration of the very same (mutated) function object. -/
def c6step2 : FeaturePipeline × TransformFn :=
  c6step1.1.add_transformation (.ostr "A") c6step1.2 none .noname "series"

/-- A transform whose declared parameters are `(a, b)` and whose body
raises `TypeError` (a data error) unless it receives the values `1, 2`
in that order. -/
def c7fn : TransformFn :=
  ⟨["a", "b"],
   fun vals =>
     match vals with
     | [PyObj.scalar (Value.vInt 1), PyObj.scalar (Value.vInt 2)] =>
         .ok (.series ⟨some "out", [PyLabel.nat 0], [Value.vInt 7]⟩)
     | _ => .error .typeError,
   none⟩

/-- A keyword-argument mapping whose names exactly match `c7fn`'s
parameters but in the other insertion order. -/
def c7args : List (String × PyObj) :=
  [("b", PyObj.scalar (Value.vInt 1)), ("a", PyObj.scalar (Value.vInt 2))]

/-- A transform returning a one-column DataFrame whose column is `c`. -/
def c8fn : TransformFn :=
  ⟨["ser1"],
   fun _ => .ok (.dataframe ⟨[PyLabel.nat 0], [("c", [Value.vInt 5])]⟩),
   none⟩

/-- A unit naming `c8fn`'s output with the single string `N`. -/
def c8unit : Transformation :=
  ⟨.olist ["A"], c8fn, .single "N", none, "series", false⟩

/-- A transform returning a Series that also has a list-named sibling. -/
def c8snFn : TransformFn :=
  ⟨["ser1"],
   fun _ => .ok (.series ⟨some "orig", [PyLabel.nat 0], [Value.vInt 9]⟩),
   none⟩

/-- A unit naming `c8snFn`'s Series output `S`. -/
def c8sUnit : Transformation :=
  ⟨.olist ["A"], c8snFn, .single "S", none, "series", false⟩

/-- A transform returning a named Series, registered without an output name. -/
def c10fn : TransformFn :=
  ⟨["ser1"],
   fun _ => .ok (.series ⟨some "f1", [PyLabel.str "k"], [Value.vInt 3]⟩),
   none⟩

/-- A unit with `name=None`. -/
def c10unit : Transformation :=
  ⟨.olist ["A"], c10fn, .noname, none, "series", false⟩

/-- A unit whose `transformation_applied` flag is already set. -/
def c4unit : Transformation :=
  ⟨.olist ["Amount"], exThresholdFn, .single "HighAmount", none, "series", true⟩

/-- An engine whose only unit is already applied, holding an accumulated table. -/
def c4pipe : FeaturePipeline :=
  ⟨[c4unit],
   some (.dataframe ⟨exIdxL, [("HighAmount", [Value.vInt 0, Value.vInt 1])]⟩),
   none⟩

/-- An engine carrying accumulated state from an earlier `apply` call:
its only unit is already applied, and its accumulated table is indexed by
that earlier call's row identity (`"OLD"`), not by the identity the next
call will establish. -/
def c2stalePipe : FeaturePipeline :=
  ⟨[⟨.olist ["Amount"], exThresholdFn, .single "HighAmount", none,
      "series", true⟩],
   some (.dataframe ⟨[PyLabel.str "OLD"], [("F", [Value.vInt 7])]⟩),
   none⟩

/-- A unit whose input name exists in neither table: resolution fails. -/
def c5badUnit : Transformation :=
  ⟨.olist ["Missing"], exThresholdFn, .single "X", none, "series", false⟩

/-- An engine holding only the resolution-failing unit. -/
def c5pipe : FeaturePipeline := ⟨[c5badUnit], none, none⟩

/-! Theorems. -/

/-- The buggy duplicate check compares a function object against the
`Transformation` wrappers, so it is always `false`. -/
theorem fnInTransformations_eq_false (f : TransformFn)
    (ts : List Transformation) : fnInTransformations f ts = false := by
  simp [fnInTransformations]

/-- Bind on a successful `Except` computation. -/
theorem except_bind_ok {ε α β : Type} (a : α) (f : α → Except ε β) :
    (Except.ok a >>= f : Except ε β) = f a := rfl

/-- Bind on a failed `Except` computation. -/
theorem except_bind_error {ε α β : Type} (e : ε) (f : α → Except ε β) :
    ((Except.error e : Except ε α) >>= f) = Except.error e := rfl

/-- Map on a successful `Except` computation. -/
theorem except_map_ok {ε α β : Type} (f : α → β) (a : α) :
    (Except.ok a : Except ε α).map f = Except.ok (f a) := rfl

/-- Map on a failed `Except` computation. -/
theorem except_map_error {ε α β : Type} (f : α → β) (e : ε) :
    (Except.error e : Except ε α).map f = Except.error e := rfl

/-- C1: argument resolution looks each declared input name up first among
the raw table's columns and, if absent there, among the accumulated
feature table's columns; a name produced earlier in the same call (present
only in the accumulated table) resolves to that column, and a name present
in neither table raises the hard error naming the missing column; and
`get_args` for a single-input per-series unit is exactly that resolution
packaged under the key `ser1`. -/
theorem c1_argument_resolution :
    (∀ (c : String) (df : DF) (tdf : Option PyTDF),
        c ∈ df.colNames →
        resolveColumn c df tdf = .ok (.series (df.getCol c))) ∧
    (∀ (c : String) (df fd : DF),
        c ∉ df.colNames → c ∈ fd.colNames →
        resolveColumn c df (some (.dataframe fd)) =
          .ok (.series (fd.getCol c))) ∧
    (∀ (c : String) (df fd : DF),
        c ∉ df.colNames → c ∉ fd.colNames →
        resolveColumn c df (some (.dataframe fd)) =
          .error (.exception
            ("Column " ++ c ++ " not found in input dataframes"))) ∧
    (∀ (c : String) (df : DF),
        c ∉ df.colNames →
        resolveColumn c df none =
          .error (.exception
            ("Column " ++ c ++ " not found in input dataframes"))) ∧
    (∀ (t : Transformation) (df : DF) (tdf : Option PyTDF) (c : String),
        t.on_col = .olist [c] → t.transform_type = "series" →
        t.transformation_args = none →
        FeaturePipeline.get_args t df tdf =
          (resolveColumn c df tdf).map (fun o => [("ser1", o)])) := by
  refine ⟨?_, ?_, ?_, ?_, ?_⟩
  · intro c df tdf h; simp [resolveColumn, h]
  · intro c df fd h1 h2; simp [resolveColumn, h1, h2]
  · intro c df fd h1 h2; simp [resolveColumn, h1, h2]
  · intro c df h; simp [resolveColumn, h]
  · intro t df tdf c h1 h2 h3
    cases hr : resolveColumn c df tdf <;>
      simp [FeaturePipeline.get_args, h1, h2, h3, hr, List.mapM,
        List.mapM.loop, List.enum, List.enumFrom, except_bind_ok,
        except_bind_error, except_map_ok, except_map_error]
    rfl

/-- Witness for C1: with `b` present only in the accumulated table,
resolution falls back to it. -/
theorem c1_argument_resolution_witness :
    resolveColumn "b" (DF.mk [PyLabel.nat 0] [("a", [Value.vInt 1])])
      (some (.dataframe (DF.mk [PyLabel.nat 0] [("b", [Value.vInt 2])]))) =
      .ok (.series
        (DF.getCol (DF.mk [PyLabel.nat 0] [("b", [Value.vInt 2])]) "b")) :=
  c1_argument_resolution.2.1 "b"
    (DF.mk [PyLabel.nat 0] [("a", [Value.vInt 1])])
    (DF.mk [PyLabel.nat 0] [("b", [Value.vInt 2])]) (by decide) (by decide)

/-- C9: every registration succeeds (the duplicate check never fires) and
mutates the caller-supplied function object by setting its `logger`
attribute to the engine's logger before the unit is created; the appended
unit wraps exactly that mutated object. -/
theorem c9_logger_side_effect (p : FeaturePipeline) (c : OnCol)
    (f : TransformFn) (a : Option (List (String × PyObj))) (n : TName)
    (ty : String) :
    (p.add_transformation c f a n ty).2.logger = p.logger ∧
    (p.add_transformation c f a n ty).1.transformations =
      p.transformations ++
        [⟨normalizeOnCols c, (p.add_transformation c f a n ty).2, n, a, ty,
          false⟩] := by
  constructor <;>
    simp [FeaturePipeline.add_transformation, fnInTransformations_eq_false]

/-- C10: with `name=None` the invoke path performs no renaming at all:
the fragment is exactly the function's result with its index reset, and a
Series result stays a Series with its own name. -/
theorem c10_no_rename_when_unnamed (t : Transformation)
    (args : List (String × PyObj)) (hn : t.name = .noname) :
    (∀ tdf, rawCall t.transformation_f args = .ok tdf →
      (Transformation.apply t args).2 = .ok (resetIndexDrop tdf)) ∧
    (∀ s, rawCall t.transformation_f args = .ok (.series s) →
      (Transformation.apply t args).2 =
        .ok (.series ⟨s.name, resetLabels s.idx.length, s.vals⟩)) := by
  constructor
  · intro tdf h; simp [Transformation.apply, h, hn, renameResult]
  · intro s h
    simp [Transformation.apply, h, hn, renameResult, resetIndexDrop]

/-- Witness for C10: an unnamed unit returns its Series unrenamed. -/
theorem c10_no_rename_when_unnamed_witness :
    (Transformation.apply c10unit [("ser1", PyObj.scalar Value.vNone)]).2 =
      .ok (.series ⟨some "f1", resetLabels 1, [Value.vInt 3]⟩) :=
  (c10_no_rename_when_unnamed c10unit
    [("ser1", PyObj.scalar Value.vNone)] rfl).2
    ⟨some "f1", [PyLabel.str "k"], [Value.vInt 3]⟩ rfl

/-- C7 counterexample: `c7fn`'s declared parameters exactly match the
supplied names (no signature mismatch), its body raises `TypeError` (a
data error) on the keyword call, and yet the engine does not propagate
that error: it retries positionally and returns a result. -/
theorem c7_counterexample :
    sigMatches c7fn c7args = true ∧
    callNamed c7fn c7args = .error .typeError ∧
    rawCall c7fn c7args =
      .ok (.series ⟨some "out", [PyLabel.nat 0], [Value.vInt 7]⟩) :=
  ⟨rfl, rfl, rfl⟩

/-- C7 amended: the call discipline retries positionally exactly when the
keyword call raises `TypeError` — whether from a signature mismatch or
from inside the function's own logic — and any non-`TypeError` failure
propagates unchanged; a signature mismatch always manifests as a
`TypeError` of the keyword call, and a failing call leaves the unit's
outcome as that same error. -/
theorem c7_amended_retry_semantics :
    (∀ (f : TransformFn) (args : List (String × PyObj)) (d : PyTDF),
        callNamed f args = .ok d → rawCall f args = .ok d) ∧
    (∀ (f : TransformFn) (args : List (String × PyObj)) (e : PyErr),
        e ≠ .typeError → callNamed f args = .error e →
        rawCall f args = .error e) ∧
    (∀ (f : TransformFn) (args : List (String × PyObj)),
        callNamed f args = .error .typeError →
        rawCall f args = callPositional f (args.map Prod.snd)) ∧
    (∀ (f : TransformFn) (args : List (String × PyObj)),
        sigMatches f args = false → callNamed f args = .error .typeError) ∧
    (∀ (t : Transformation) (args : List (String × PyObj)) (e : PyErr),
        rawCall t.transformation_f args = .error e →
        (Transformation.apply t args).2 = .error e) := by
  refine ⟨?_, ?_, ?_, ?_, ?_⟩
  · intro f args d h; simp [rawCall, h]
  · intro f args e hne h
    cases e
    case typeError => exact absurd rfl hne
    all_goals simp [rawCall, h]
  · intro f args h; simp [rawCall, h]
  · intro f args h; simp [callNamed, h]
  · intro t args e h; simp [Transformation.apply, h]

/-- Witness for C7 amended: a keyword-call `TypeError` (here a genuine
signature mismatch) is retried positionally. -/
theorem c7_amended_retry_semantics_witness :
    rawCall c7fn [("x", PyObj.scalar (Value.vInt 1))] =
      callPositional c7fn [PyObj.scalar (Value.vInt 1)] :=
  c7_amended_retry_semantics.2.2.1 c7fn
    [("x", PyObj.scalar (Value.vInt 1))] rfl

/-- C8 counterexample: the function returns a SINGLE column (a one-column
DataFrame) and the unit's output name is the single string `N`, yet the
fragment's column is `N_c`, not `N`: renaming branches on the result's
type, not on its column count. -/
theorem c8_counterexample :
    (Transformation.apply c8unit [("ser1", PyObj.scalar Value.vNone)]).2 =
      .ok (.dataframe ⟨[PyLabel.nat 0], [("N_c", [Value.vInt 5])]⟩) ∧
    ("N_c" : String) ≠ "N" := ⟨rfl, by decide⟩

/-- C8 amended: renaming is by result type — a Series result with single
name `N` becomes the one-column table named exactly `N`; a DataFrame
result (of any column count) with a single name has every column `c`
renamed to `N_c`; a DataFrame result with a list of names (of matching
length) is renamed positionally. -/
theorem c8_amended_output_naming (t : Transformation)
    (args : List (String × PyObj)) :
    (∀ (n : String) (s : Series), t.name = .single n →
        rawCall t.transformation_f args = .ok (.series s) →
        (Transformation.apply t args).2 =
          .ok (.dataframe ⟨resetLabels s.idx.length, [(n, s.vals)]⟩)) ∧
    (∀ (n : String) (d : DF), t.name = .single n →
        rawCall t.transformation_f args = .ok (.dataframe d) →
        (Transformation.apply t args).2 =
          .ok (.dataframe ⟨resetLabels d.idx.length,
            d.cols.map (fun c => (n ++ "_" ++ c.1, c.2))⟩)) ∧
    (∀ (l : List String) (d : DF), t.name = .multi l →
        l.length = d.cols.length →
        rawCall t.transformation_f args = .ok (.dataframe d) →
        (Transformation.apply t args).2 =
          .ok (.dataframe ⟨resetLabels d.idx.length,
            l.zip (d.cols.map Prod.snd)⟩)) := by
  refine ⟨?_, ?_, ?_⟩
  · intro n s hn h
    simp [Transformation.apply, h, hn, renameResult, resetIndexDrop]
  · intro n d hn h
    simp [Transformation.apply, h, hn, renameResult, resetIndexDrop]
  · intro l d hn hlen h
    simp [Transformation.apply, h, hn, hlen, renameResult, resetIndexDrop]

/-- Witness for C8 amended: a Series result named `S` becomes the
one-column table named exactly `S`. -/
theorem c8_amended_output_naming_witness :
    (Transformation.apply c8sUnit [("ser1", PyObj.scalar Value.vNone)]).2 =
      .ok (.dataframe ⟨resetLabels 1, [("S", [Value.vInt 9])]⟩) :=
  (c8_amended_output_naming c8sUnit
    [("ser1", PyObj.scalar Value.vNone)]).1 "S"
    ⟨some "orig", [PyLabel.nat 0], [Value.vInt 9]⟩ rfl rfl

/-- C6: the duplicate-registration check never fires — registering the
very same function object twice leaves TWO units in the engine (the
claim/spec say one), and in general every registration appends. -/
theorem c6_duplicate_check_never_fires :
    c6step2.1.transformations.length = 2 ∧
    (∀ (p : FeaturePipeline) (c : OnCol) (f : TransformFn)
        (a : Option (List (String × PyObj))) (n : TName) (ty : String),
      (p.add_transformation c f a n ty).1.transformations.length =
        p.transformations.length + 1) := by
  constructor
  · rfl
  · intro p c f a n ty
    simp [FeaturePipeline.add_transformation, fnInTransformations_eq_false]

/-- C3 counterexample: with an integer-valued identity column the claim's
key (the concatenated string representations, here `"1"`) is never built —
`apply_transformations` raises `TypeError`, because `"".join` is applied
to the raw values without `str(...)` conversion. -/
theorem c3_counterexample :
    (FeaturePipeline.mk [] none none).apply_transformations c3df
        (some ["ID"]) false =
      (FeaturePipeline.mk [] none none, [], .error .typeError) ∧
    specRowKeys c3df.dedupColumns ["ID"] = ["1"] := ⟨rfl, rfl⟩

/-- Splitting a keep-mask application on a cons cell. -/
theorem maskList_cons {α : Type} (b : Bool) (m : List Bool) (x : α)
    (l : List α) :
    maskList (b :: m) (x :: l) =
      if b then x :: maskList m l else maskList m l := by
  cases b <;> simp [maskList, List.filter_cons]

/-- The keys kept by the first-occurrence mask are mutually distinct, and
a key survives exactly when it occurs in the list and was not yet seen. -/
theorem firstOccMaskAux_kept (ks : List String) :
    ∀ seen : List String,
      (maskList (firstOccMaskAux ks seen) ks).Nodup ∧
      (∀ x, x ∈ maskList (firstOccMaskAux ks seen) ks ↔
        x ∈ ks ∧ x ∉ seen) := by
  induction ks with
  | nil => intro seen; simp [firstOccMaskAux, maskList]
  | cons k ks ih =>
    intro seen
    obtain ⟨ih1, ih2⟩ := ih (k :: seen)
    by_cases hk : k ∈ seen
    · have hc : seen.contains k = true := List.elem_eq_true_of_mem hk
      rw [firstOccMaskAux]
      simp only [hc, Bool.not_true, maskList_cons, if_neg Bool.false_ne_true]
      refine ⟨ih1, ?_⟩
      intro x
      rw [ih2]
      by_cases hx : x = k
      · subst hx; simp [hk]
      · simp [List.mem_cons, hx]
    · have hc : seen.contains k = false :=
        Bool.eq_false_iff.mpr (fun hcc => hk (List.mem_of_elem_eq_true hcc))
      rw [firstOccMaskAux]
      simp only [hc, Bool.not_false, maskList_cons, if_pos]
      constructor
      · refine List.nodup_cons.mpr ⟨?_, ih1⟩
        intro hmem
        exact ((ih2 k).mp hmem).2 (List.mem_cons_self k seen)
      · intro x
        by_cases hx : x = k
        · subst hx; simp [hk]
        · simp [List.mem_cons, hx, ih2 x]

/-- The deduplicated key sequence has no duplicates and exactly the
original keys as members. -/
theorem firstDedup_nodup_mem (keys : List String) :
    (firstDedup keys).Nodup ∧ ∀ x, x ∈ firstDedup keys ↔ x ∈ keys := by
  obtain ⟨h1, h2⟩ := firstOccMaskAux_kept keys []
  exact ⟨h1, fun x => by simpa using h2 x⟩

/-- On all-string values Python's `"".join` succeeds, with the plain
concatenation of the values. -/
theorem joinStrs_strings (ss : List String) :
    joinStrs (ss.map Value.vStr) = .ok (specJoin ss) := by
  induction ss with
  | nil => rfl
  | cons s ss ih => simp [joinStrs, specJoin, ih, except_map_ok]

/-- C3 amended: when every identity value is (already) a string — the only
case the code's `"".join` accepts, non-strings raising `TypeError` — the
row keys are the concatenations of the identity columns' values, rows with
a repeated key keep only the first occurrence (the surviving key sequence
has no duplicates yet covers every key), and that sequence becomes the
canonical ordering and the working table's row labels. -/
theorem c3_amended_row_identity (df : DF) (cols : List String)
    (keys : List String) (hne : cols ≠ [])
    (hk : df.rowKeys cols = .ok keys) :
    (∃ df2 : DF,
        rowIdentity df (some cols) =
          .ok (df2, (firstDedup keys).map PyLabel.str) ∧
        df2.idx = (firstDedup keys).map PyLabel.str) ∧
    (firstDedup keys).Nodup ∧
    (∀ x, x ∈ firstDedup keys ↔ x ∈ keys) ∧
    (∀ ss : List String,
        joinStrs (ss.map Value.vStr) = .ok (specJoin ss)) := by
  refine ⟨?_, (firstDedup_nodup_mem keys).1, (firstDedup_nodup_mem keys).2,
    joinStrs_strings⟩
  have hne' : cols.isEmpty = false := by
    cases cols with
    | nil => exact absurd rfl hne
    | cons c cs => rfl
  refine ⟨(DF.mk ((firstDedup keys).map PyLabel.str)
      ((df.setCol "INDEX" (keys.map Value.vStr)).filterRows
        (firstOccMask keys)).cols).delCol "INDEX", ?_, ?_⟩
  · simp [rowIdentity, hne', hk]
  · simp [DF.delCol]

/-- Witness for C3 amended, on the spec §8 example table (string IDs
`["1","2","2"]`): the duplicate key `"2"` collapses. -/
theorem c3_amended_row_identity_witness :
    (∃ df2 : DF,
        rowIdentity exRaw (some ["ID"]) =
          .ok (df2, (firstDedup ["1", "2", "2"]).map PyLabel.str) ∧
        df2.idx = (firstDedup ["1", "2", "2"]).map PyLabel.str) ∧
    (firstDedup ["1", "2", "2"]).Nodup ∧
    (∀ x, x ∈ firstDedup ["1", "2", "2"] ↔ x ∈ ["1", "2", "2"]) ∧
    (∀ ss : List String,
        joinStrs (ss.map Value.vStr) = .ok (specJoin ss)) :=
  c3_amended_row_identity exRaw ["ID"] ["1", "2", "2"]
    (List.cons_ne_nil "ID" []) rfl

/-- Viewing a result as a frame keeps the row labels. -/
theorem tdfToDF_idx (x : PyTDF) : (tdfToDF x).idx = tdfIndex x := by
  cases x <;> rfl

/-- A successful `tdf.index = labels` assignment yields exactly those labels. -/
theorem setIndexLabels_ok_index {tdf r : PyTDF} {L : List PyLabel}
    (h : setIndexLabels tdf L = .ok r) : tdfIndex r = L := by
  cases tdf <;> simp only [setIndexLabels] at h <;> split at h <;>
    first
      | (injection h with h1; subst h1; rfl)
      | simp at h

/-- A successful column-wise merge keeps the running result's labels. -/
theorem concatAxis1_ok_index {a b m : PyTDF} (h : concatAxis1 a b = .ok m) :
    tdfIndex m = tdfIndex a := by
  simp only [concatAxis1] at h
  split at h
  · injection h with h1
    subst h1
    simp [tdfIndex, tdfToDF_idx]
  · simp at h

/-- A unit that completed `Transformation.apply` successfully has its
`transformation_applied` flag set. -/
theorem transformation_apply_ok_applied {t t' : Transformation}
    {args : List (String × PyObj)} {v : PyTDF}
    (h : Transformation.apply t args = (t', .ok v)) :
    t'.transformation_applied = true := by
  unfold Transformation.apply at h
  split at h
  · simp at h
  · split at h
    · simp at h
    · injection h with h1 h2
      subst h1
      rfl

/-- Facts about a successfully completed loop iteration: the unit's flag
is set, and (given the running result carried the canonical labels) the
new running result carries the canonical labels. -/
theorem runUnit_ok_facts {df : DF} {idxL : List PyLabel}
    {t t' : Transformation} {localT : Option PyTDF} {inv : Bool} {m : PyTDF}
    (h : runUnit df idxL t localT = (t', inv, .ok m)) :
    t'.transformation_applied = true ∧
    ((∀ x, localT = some x → tdfIndex x = idxL) → tdfIndex m = idxL) := by
  cases hg : FeaturePipeline.get_args t df localT with
  | error e => simp [runUnit, hg] at h
  | ok args =>
    rcases ha : Transformation.apply t args with ⟨t2, r2⟩
    cases r2 with
    | error e => simp [runUnit, hg, ha] at h
    | ok tdf =>
      have ht2 : t2.transformation_applied = true :=
        transformation_apply_ok_applied ha
      cases hs : setIndexLabels tdf idxL with
      | error e => simp [runUnit, hg, ha, hs] at h
      | ok tdfI =>
        have hidx : tdfIndex tdfI = idxL := setIndexLabels_ok_index hs
        cases localT with
        | none =>
          simp only [runUnit, hg, ha, hs, Prod.mk.injEq,
            Except.ok.injEq] at h
          obtain ⟨h1, -, h3⟩ := h
          subst h1
          subst h3
          exact ⟨ht2, fun _ => hidx⟩
        | some prev =>
          cases hc : concatAxis1 prev tdfI with
          | error e => simp [runUnit, hg, ha, hs, hc] at h
          | ok merged =>
            simp only [runUnit, hg, ha, hs, hc, Prod.mk.injEq,
              Except.ok.injEq] at h
            obtain ⟨h1, -, h3⟩ := h
            subst h1
            subst h3
            refine ⟨ht2, fun hl => ?_⟩
            rw [concatAxis1_ok_index hc]
            exact hl prev rfl

/-- Row labels of a successful loop result: if the running result starts
out `None` or canonically labelled, any returned table is canonically
labelled. -/
theorem applyLoop_ok_index (df : DF) (idxL : List PyLabel) (b : Bool) :
    ∀ (ts : List Transformation) (selfT localT : Option PyTDF),
      (∀ x, localT = some x → tdfIndex x = idxL) →
      ∀ r, (applyLoop df idxL b ts selfT localT).result = .ok (some r) →
        tdfIndex r = idxL := by
  intro ts
  induction ts with
  | nil =>
    intro selfT localT hl r h
    simp only [applyLoop, Except.ok.injEq] at h
    exact hl r h
  | cons t rest ih =>
    intro selfT localT hl r h
    rw [applyLoop] at h
    by_cases hskip : (t.transformation_applied && !b) = true
    · simp only [hskip, if_true] at h
      exact ih selfT localT hl r h
    · simp only [hskip, if_false, Bool.false_eq_true] at h
      rcases hr : runUnit df idxL t localT with ⟨t', inv, res⟩
      rw [hr] at h
      cases res with
      | error e => simp at h
      | ok m =>
        refine ih (some m) (some m) ?_ r h
        intro x hx
        injection hx with hx1
        rw [← hx1]
        exact (runUnit_ok_facts hr).2 hl

/-- With every unit's flag set and `reapply_all=false`, the loop is the
identity: no unit is run, nothing is invoked, the running result is
returned as is. -/
theorem applyLoop_skip_all (df : DF) (idxL : List PyLabel) :
    ∀ (ts : List Transformation) (selfT localT : Option PyTDF),
      (∀ t ∈ ts, t.transformation_applied = true) →
      applyLoop df idxL false ts selfT localT = ⟨ts, selfT, [], .ok localT⟩ := by
  intro ts
  induction ts with
  | nil => intro selfT localT _; rfl
  | cons t rest ih =>
    intro selfT localT h
    have ht : t.transformation_applied = true := h t (List.mem_cons_self t rest)
    rw [applyLoop]
    simp [ht, ih selfT localT (fun u hu => h u (List.mem_cons_of_mem t hu))]

/-- After a successful loop run, every unit in the output list has its
flag set (skipped units had it, run units acquired it). -/
theorem applyLoop_ok_flags (df : DF) (idxL : List PyLabel) (b : Bool) :
    ∀ (ts : List Transformation) (selfT localT v : Option PyTDF),
      (applyLoop df idxL b ts selfT localT).result = .ok v →
      ∀ u ∈ (applyLoop df idxL b ts selfT localT).units,
        u.transformation_applied = true := by
  intro ts
  induction ts with
  | nil =>
    intro selfT localT v _ u hu
    simp [applyLoop] at hu
  | cons t rest ih =>
    intro selfT localT v h u hu
    rw [applyLoop] at h hu
    by_cases hskip : (t.transformation_applied && !b) = true
    · simp only [hskip, if_true] at h hu
      rcases List.mem_cons.mp hu with rfl | hu'
      · exact (Bool.and_eq_true _ _).mp hskip |>.1
      · exact ih selfT localT v h u hu'
    · simp only [hskip, if_false, Bool.false_eq_true] at h hu
      rcases hr : runUnit df idxL t localT with ⟨t', inv, res⟩
      rw [hr] at h hu
      cases res with
      | error e => simp at h
      | ok m =>
        rcases List.mem_cons.mp hu with rfl | hu'
        · exact (runUnit_ok_facts hr).1
        · exact ih (some m) (some m) v h u hu'

/-- After a successful loop run started with `selfTdf = localT`, the
stored `selfTdf` equals the returned running result. -/
theorem applyLoop_ok_selfTdf (df : DF) (idxL : List PyLabel) (b : Bool) :
    ∀ (ts : List Transformation) (s v : Option PyTDF),
      (applyLoop df idxL b ts s s).result = .ok v →
      (applyLoop df idxL b ts s s).selfTdf = v := by
  intro ts
  induction ts with
  | nil =>
    intro s v h
    simp only [applyLoop, Except.ok.injEq] at h
    simpa [applyLoop] using h
  | cons t rest ih =>
    intro s v h
    rw [applyLoop] at h ⊢
    by_cases hskip : (t.transformation_applied && !b) = true
    · simp only [hskip, if_true] at h ⊢
      exact ih s v h
    · simp only [hskip, if_false, Bool.false_eq_true] at h ⊢
      rcases hr : runUnit df idxL t s with ⟨t', inv, res⟩
      rw [hr] at h
      cases res with
      | error e => simp at h
      | ok m => exact ih (some m) v h

/-- C2 counterexample: an `apply` call on an engine carrying a stale
accumulated table succeeds (all units skipped) and returns that table
still indexed by the EARLIER call's row identity `["OLD"]`, not by the
canonical ordering `["1","2"]` this call establishes at its start — so
not every row of the accumulated feature table is indexed by the current
call's canonical ordering. -/
theorem c2_counterexample :
    rowIdentity exRaw.dedupColumns (some ["ID"]) = .ok (exDF1, exIdxL) ∧
    (c2stalePipe.apply_transformations exRaw (some ["ID"]) false).2.2 =
      .ok (some (.dataframe
        ⟨[PyLabel.str "OLD"], [("F", [Value.vInt 7])]⟩)) ∧
    tdfIndex (.dataframe ⟨[PyLabel.str "OLD"], [("F", [Value.vInt 7])]⟩) ≠
      exIdxL :=
  ⟨rfl, rfl, by decide⟩

/-- C2 amended: every executed unit's fragment is realigned to the
canonical row identity established at the start of the call before being
merged — the labels it carried are discarded and replaced positionally —
and, provided any table carried over from earlier calls is indexed by
that same canonical ordering (in particular whenever the call starts with
no accumulated table), every table the call returns is indexed by exactly
the canonical ordering, for every unit list and transform behaviour. -/
theorem c2_amended_canonical_row_order :
    (∀ (tdf : PyTDF) (labels : List PyLabel) (r : PyTDF),
        setIndexLabels tdf labels = .ok r → tdfIndex r = labels) ∧
    (∀ (p : FeaturePipeline) (df : DF) (ic : Option (List String))
        (b : Bool) (df1 : DF) (index_list : List PyLabel) (r : PyTDF),
      (∀ x, p.transformed_df = some x → tdfIndex x = index_list) →
      rowIdentity df.dedupColumns ic = .ok (df1, index_list) →
      (p.apply_transformations df ic b).2.2 = .ok (some r) →
      tdfIndex r = index_list) := by
  constructor
  · exact fun tdf labels r h => setIndexLabels_ok_index h
  · intro p df ic b df1 index_list r h0 hid hres
    unfold FeaturePipeline.apply_transformations at hres
    rw [hid] at hres
    exact applyLoop_ok_index df1 index_list b p.transformations
      p.transformed_df p.transformed_df h0 r hres

/-- Witness for C2 amended: the example run (fresh engine, so the
carry-over proviso holds vacuously) returns a table indexed by the
canonical identity `["1","2"]`, not by the transform's own labels. -/
theorem c2_amended_canonical_row_order_witness :
    tdfIndex (.dataframe ⟨[PyLabel.str "1", PyLabel.str "2"],
      [("HighAmount", [Value.vInt 0, Value.vInt 1])]⟩) = exIdxL :=
  c2_amended_canonical_row_order.2 exPipe exRaw (some ["ID"]) false exDF1
    exIdxL (.dataframe ⟨[PyLabel.str "1", PyLabel.str "2"],
      [("HighAmount", [Value.vInt 0, Value.vInt 1])]⟩)
    (fun x hx => by
      have hx' : (none : Option PyTDF) = some x := hx
      cases hx')
    rfl rfl

/-- C4: with every registered unit's flag set and `reapply_all=false`,
`apply_transformations` changes nothing — no transform function is
invoked, the engine is returned unchanged, and any returned table is
exactly the previously accumulated one; consequently a second `apply`
right after a successful one (same arguments, no new registrations)
returns the first call's result with no invocations. -/
theorem c4_skip_idempotence :
    (∀ (p : FeaturePipeline) (df : DF) (ic : Option (List String)),
      (∀ t ∈ p.transformations, t.transformation_applied = true) →
      (p.apply_transformations df ic false).1 = p ∧
      (p.apply_transformations df ic false).2.1 = [] ∧
      ∀ r, (p.apply_transformations df ic false).2.2 = .ok r →
        r = p.transformed_df) ∧
    (∀ (p : FeaturePipeline) (df : DF) (ic : Option (List String))
        (p₁ : FeaturePipeline) (tr₁ : List Nat) (r₁ : Option PyTDF),
      p.apply_transformations df ic false = (p₁, tr₁, .ok r₁) →
      p₁.apply_transformations df ic false = (p₁, [], .ok r₁)) := by
  constructor
  · intro p df ic hall
    cases hid : rowIdentity df.dedupColumns ic with
    | error e =>
      refine ⟨?_, ?_, ?_⟩ <;>
        simp [FeaturePipeline.apply_transformations, hid]
    | ok pr =>
      obtain ⟨df1, idxL⟩ := pr
      have hloop := applyLoop_skip_all df1 idxL p.transformations
        p.transformed_df p.transformed_df hall
      refine ⟨?_, ?_, ?_⟩ <;>
        simp [FeaturePipeline.apply_transformations, hid, hloop]
  · intro p df ic p₁ tr₁ r₁ h
    cases hid : rowIdentity df.dedupColumns ic with
    | error e =>
      simp only [FeaturePipeline.apply_transformations, hid] at h
      simp at h
    | ok pr =>
      obtain ⟨df1, idxL⟩ := pr
      simp only [FeaturePipeline.apply_transformations, hid] at h
      injection h with h1 h2
      injection h2 with h2 h3
      have hflags : ∀ u ∈ (applyLoop df1 idxL false p.transformations
          p.transformed_df p.transformed_df).units,
          u.transformation_applied = true :=
        applyLoop_ok_flags df1 idxL false p.transformations
          p.transformed_df p.transformed_df r₁ h3
      have hself : (applyLoop df1 idxL false p.transformations
          p.transformed_df p.transformed_df).selfTdf = r₁ :=
        applyLoop_ok_selfTdf df1 idxL false p.transformations
          p.transformed_df r₁ h3
      have hp1t : p₁.transformations = (applyLoop df1 idxL false
          p.transformations p.transformed_df p.transformed_df).units := by
        rw [← h1]
      have hp1d : p₁.transformed_df = r₁ := by
        rw [← h1]; exact hself
      have hloop2 := applyLoop_skip_all df1 idxL p₁.transformations
        p₁.transformed_df p₁.transformed_df (by rw [hp1t]; exact hflags)
      simp only [FeaturePipeline.apply_transformations, hid, hloop2]
      refine Prod.ext_iff.mpr ⟨rfl, Prod.ext_iff.mpr ⟨rfl, ?_⟩⟩
      simp [hp1d]

/-- Witness for C4: a one-unit engine whose unit is already applied is
left untouched by `apply`. -/
theorem c4_skip_idempotence_witness :
    (c4pipe.apply_transformations exRaw (some ["ID"]) false).1 = c4pipe ∧
    (c4pipe.apply_transformations exRaw (some ["ID"]) false).2.1 = [] ∧
    ∀ r, (c4pipe.apply_transformations exRaw (some ["ID"]) false).2.2 =
        .ok r → r = c4pipe.transformed_df :=
  c4_skip_idempotence.1 c4pipe exRaw (some ["ID"])
    (by intro t ht; simp [c4pipe] at ht; subst ht; rfl)

/-- Decomposition of a failing loop run started with `selfTdf = localT`:
there is a position `k` (the failing unit's) such that only units at
positions up to `k` were invoked, units after `k` are untouched, units
before `k` all carry a set flag, and the run over the first `k` units
alone succeeds, returning exactly the `selfTdf` the failing run stored. -/
theorem applyLoop_error_decomp (df : DF) (idxL : List PyLabel) (b : Bool) :
    ∀ (ts : List Transformation) (s : Option PyTDF) (e : PyErr),
      (applyLoop df idxL b ts s s).result = .error e →
      ∃ k, k ≤ ts.length ∧
        (∀ j ∈ (applyLoop df idxL b ts s s).invoked, j ≤ k) ∧
        (∀ j, k < j →
          (applyLoop df idxL b ts s s).units.get? j = ts.get? j) ∧
        (∀ j, j < k → ∀ u,
          (applyLoop df idxL b ts s s).units.get? j = some u →
          u.transformation_applied = true) ∧
        (applyLoop df idxL b (ts.take k) s s).result =
          .ok ((applyLoop df idxL b ts s s).selfTdf) ∧
        (applyLoop df idxL b (ts.take k) s s).selfTdf =
          (applyLoop df idxL b ts s s).selfTdf := by
  intro ts
  induction ts with
  | nil => intro s e h; simp [applyLoop] at h
  | cons t rest ih =>
    intro s e h
    by_cases hskip : (t.transformation_applied && !b) = true
    · have hfull : applyLoop df idxL b (t :: rest) s s =
          ⟨t :: (applyLoop df idxL b rest s s).units,
           (applyLoop df idxL b rest s s).selfTdf,
           (applyLoop df idxL b rest s s).invoked.map (· + 1),
           (applyLoop df idxL b rest s s).result⟩ := by
        rw [applyLoop]; simp [hskip]
      rw [hfull] at h
      obtain ⟨k, hk1, hk2, hk3, hk4, hk5, hk6⟩ := ih s e h
      have hpre : applyLoop df idxL b ((t :: rest).take (k + 1)) s s =
          ⟨t :: (applyLoop df idxL b (rest.take k) s s).units,
           (applyLoop df idxL b (rest.take k) s s).selfTdf,
           (applyLoop df idxL b (rest.take k) s s).invoked.map (· + 1),
           (applyLoop df idxL b (rest.take k) s s).result⟩ := by
        rw [List.take_succ_cons, applyLoop]; simp [hskip]
      refine ⟨k + 1, ?_, ?_, ?_, ?_, ?_, ?_⟩
      · simpa using Nat.succ_le_succ hk1
      · rw [hfull]
        intro j hj
        simp only [List.mem_map] at hj
        obtain ⟨j', hj', rfl⟩ := hj
        exact Nat.succ_le_succ (hk2 j' hj')
      · rw [hfull]
        intro j hj
        cases j with
        | zero => omega
        | succ j' => simpa using hk3 j' (Nat.lt_of_succ_lt_succ hj)
      · rw [hfull]
        intro j hj u hu
        cases j with
        | zero =>
          simp only [List.get?_cons_zero, Option.some.injEq] at hu
          rw [← hu]
          exact ((Bool.and_eq_true _ _).mp hskip).1
        | succ j' =>
          simp only [List.get?_cons_succ] at hu
          exact hk4 j' (Nat.lt_of_succ_lt_succ hj) u hu
      · rw [hfull, hpre]; exact hk5
      · rw [hfull, hpre]; exact hk6
    · rcases hr : runUnit df idxL t s with ⟨t', inv, res⟩
      cases res with
      | error e' =>
        have hfull : applyLoop df idxL b (t :: rest) s s =
            ⟨t' :: rest, s, if inv then [0] else [], .error e'⟩ := by
          rw [applyLoop]; simp [hskip, hr]
        refine ⟨0, Nat.zero_le _, ?_, ?_, ?_, ?_, ?_⟩
        · rw [hfull]
          intro j hj
          cases inv
          · simp at hj
          · simp at hj; omega
        · rw [hfull]
          intro j hj
          cases j with
          | zero => omega
          | succ j' => simp
        · intro j hj; omega
        · rw [hfull]; rfl
        · rw [hfull]; rfl
      | ok m =>
        have hfull : applyLoop df idxL b (t :: rest) s s =
            ⟨t' :: (applyLoop df idxL b rest (some m) (some m)).units,
             (applyLoop df idxL b rest (some m) (some m)).selfTdf,
             0 :: (applyLoop df idxL b rest (some m) (some m)).invoked.map
               (· + 1),
             (applyLoop df idxL b rest (some m) (some m)).result⟩ := by
          rw [applyLoop]; simp [hskip, hr]
        rw [hfull] at h
        obtain ⟨k, hk1, hk2, hk3, hk4, hk5, hk6⟩ := ih (some m) e h
        have hpre : applyLoop df idxL b ((t :: rest).take (k + 1)) s s =
            ⟨t' :: (applyLoop df idxL b (rest.take k) (some m)
                (some m)).units,
             (applyLoop df idxL b (rest.take k) (some m) (some m)).selfTdf,
             0 :: (applyLoop df idxL b (rest.take k) (some m)
               (some m)).invoked.map (· + 1),
             (applyLoop df idxL b (rest.take k) (some m)
               (some m)).result⟩ := by
          rw [List.take_succ_cons, applyLoop]; simp [hskip, hr]
        refine ⟨k + 1, ?_, ?_, ?_, ?_, ?_, ?_⟩
        · simpa using Nat.succ_le_succ hk1
        · rw [hfull]
          intro j hj
          simp only [List.mem_cons, List.mem_map] at hj
          rcases hj with rfl | ⟨j', hj', rfl⟩
          · exact Nat.zero_le _
          · exact Nat.succ_le_succ (hk2 j' hj')
        · rw [hfull]
          intro j hj
          cases j with
          | zero => omega
          | succ j' => simpa using hk3 j' (Nat.lt_of_succ_lt_succ hj)
        · rw [hfull]
          intro j hj u hu
          cases j with
          | zero =>
            simp only [List.get?_cons_zero, Option.some.injEq] at hu
            rw [← hu]
            exact (runUnit_ok_facts hr).1
          | succ j' =>
            simp only [List.get?_cons_succ] at hu
            exact hk4 j' (Nat.lt_of_succ_lt_succ hj) u hu
        · rw [hfull, hpre]; exact hk5
        · rw [hfull, hpre]; exact hk6

/-- C5: when an `apply` call fails, the failure propagates to the caller
uncaught (no retry of any unit); either the failure precedes the loop (row
identity construction) and the engine is untouched, or — writing `k` for
the failing unit's position — no unit after `k` was invoked or touched,
every unit before `k` carries a set flag (so a later `apply` with
`reapply_all=false` skips them), and, because the running result is stored
back after every unit, the engine's accumulated table afterwards is
exactly what running only the first `k` units produces. -/
theorem c5_failure_semantics (p : FeaturePipeline) (df : DF)
    (ic : Option (List String)) (b : Bool) (p' : FeaturePipeline)
    (tr : List Nat) (e : PyErr)
    (h : p.apply_transformations df ic b = (p', tr, .error e)) :
    (rowIdentity df.dedupColumns ic = .error e ∧ p' = p ∧ tr = []) ∨
    ∃ k, k ≤ p.transformations.length ∧
      (∀ j ∈ tr, j ≤ k) ∧
      (∀ j, k < j →
        p'.transformations.get? j = p.transformations.get? j) ∧
      (∀ j, j < k → ∀ u, p'.transformations.get? j = some u →
        u.transformation_applied = true) ∧
      ∃ q tr' r,
        FeaturePipeline.apply_transformations
          {p with transformations := p.transformations.take k} df ic b =
            (q, tr', .ok r) ∧
        p'.transformed_df = r := by
  cases hid : rowIdentity df.dedupColumns ic with
  | error e0 =>
    left
    simp only [FeaturePipeline.apply_transformations, hid] at h
    injection h with h1 h2
    injection h2 with h2 h3
    injection h3 with h3
    refine ⟨?_, h1.symm, h2.symm⟩
    rw [h3]
  | ok pr =>
    obtain ⟨df1, idxL⟩ := pr
    right
    simp only [FeaturePipeline.apply_transformations, hid] at h
    injection h with h1 h2
    injection h2 with h2 h3
    obtain ⟨k, hk1, hk2, hk3, hk4, hk5, hk6⟩ :=
      applyLoop_error_decomp df1 idxL b p.transformations p.transformed_df
        e h3
    have hpt : p'.transformations = (applyLoop df1 idxL b p.transformations
        p.transformed_df p.transformed_df).units := by
      rw [← h1]
    have happ : FeaturePipeline.apply_transformations
        {p with transformations := p.transformations.take k} df ic b =
        ({p with
            transformations := (applyLoop df1 idxL b
              (p.transformations.take k) p.transformed_df
              p.transformed_df).units,
            transformed_df := (applyLoop df1 idxL b
              (p.transformations.take k) p.transformed_df
              p.transformed_df).selfTdf},
         (applyLoop df1 idxL b (p.transformations.take k) p.transformed_df
           p.transformed_df).invoked,
         (applyLoop df1 idxL b (p.transformations.take k) p.transformed_df
           p.transformed_df).result) := by
      simp only [FeaturePipeline.apply_transformations, hid]
    refine ⟨k, hk1, ?_, ?_, ?_, ?_⟩
    · rw [← h2]; exact hk2
    · intro j hj; rw [hpt]; exact hk3 j hj
    · intro j hj u hu
      rw [hpt] at hu
      exact hk4 j hj u hu
    · refine ⟨{p with
          transformations := (applyLoop df1 idxL b
            (p.transformations.take k) p.transformed_df
            p.transformed_df).units,
          transformed_df := (applyLoop df1 idxL b
            (p.transformations.take k) p.transformed_df
            p.transformed_df).selfTdf},
        (applyLoop df1 idxL b (p.transformations.take k) p.transformed_df
          p.transformed_df).invoked,
        (applyLoop df1 idxL b p.transformations p.transformed_df
          p.transformed_df).selfTdf, ?_, ?_⟩
      · rw [happ, hk5]
      · rw [← h1]

/-- Witness for C5: a pipeline whose only unit names a missing column
fails in resolution; the engine keeps its (empty) accumulated state and
the zero-unit prefix run succeeds. -/
theorem c5_failure_semantics_witness :
    (rowIdentity exRaw.dedupColumns (some ["ID"]) =
        .error (.exception "Column Missing not found in input dataframes") ∧
      c5pipe = c5pipe ∧ ([] : List Nat) = []) ∨
    ∃ k, k ≤ c5pipe.transformations.length ∧
      (∀ j ∈ ([] : List Nat), j ≤ k) ∧
      (∀ j, k < j → c5pipe.transformations.get? j =
        c5pipe.transformations.get? j) ∧
      (∀ j, j < k → ∀ u, c5pipe.transformations.get? j = some u →
        u.transformation_applied = true) ∧
      ∃ q tr' r,
        FeaturePipeline.apply_transformations
          {c5pipe with transformations := c5pipe.transformations.take k}
          exRaw (some ["ID"]) false = (q, tr', .ok r) ∧
        c5pipe.transformed_df = r :=
  c5_failure_semantics c5pipe exRaw (some ["ID"]) false c5pipe []
    (.exception "Column Missing not found in input dataframes") rfl

end FeaturePipelineModel
